import Mathlib

/-!
Shallow embedding of the deployment strategy controller of the
`ci-cd-pipeline` repository (`scripts/deploy-controller.ps1`, plus the
blue-green health-check stage of the Jenkins pipeline embedded in
`app/app.js`).

The orchestrator (kubectl against the cluster) is modelled as an abstract
`ClusterState` record; every kubectl invocation a controller function makes
is recorded in an `OrchCall` trace, and the success/failure of the calls
whose outcome the script can observe (`$LASTEXITCODE` checks) or whose
effect matters is supplied as explicit boolean oracles.
-/

namespace CICD

/-- Blue-green colors, the two values of the `version` selector the script
uses for `ci-cd-app-blue` / `ci-cd-app-green`. -/
inductive Color where
  | blue
  | green
deriving DecidableEq, Repr

/-- Previous color computation from `Switch-BlueGreen`:
`if ($TargetVersion -eq "blue") { "green" } else { "blue" }`. -/
def Color.prev : Color → Color
  | .blue => .green
  | .green => .blue

/-- Deployment object name for a color, `ci-cd-app-$TargetVersion`. -/
def deploymentName : Color → String
  | .blue => "ci-cd-app-blue"
  | .green => "ci-cd-app-green"

/-- Deployment object name of the canary variant. -/
def canaryDeployment : String := "ci-cd-app-canary"

/-- Abstract cluster + persisted state the controller reads and writes:
the `ci-cd-app-bluegreen` service selector, per-deployment replica counts,
the `nginx.ingress.kubernetes.io/canary-weight` ingress annotation (absent
until first set), and the `deployment-status` / `canary-status` ConfigMap
fields. -/
structure ClusterState where
  selector : Color
  blueReplicas : Nat
  greenReplicas : Nat
  canaryReplicas : Nat
  ingressWeight : Option Nat
  cmActiveVersion : Option Color
  cmCanaryWeight : Option Nat
  cmCanaryEnabled : Option Bool
  cmPromotionStage : Option Nat
deriving DecidableEq, Repr

/-- Replica count of the deployment of a given color. -/
def ClusterState.replicasOf (s : ClusterState) : Color → Nat
  | .blue => s.blueReplicas
  | .green => s.greenReplicas

/-- Update the replica count of a color's deployment. -/
def ClusterState.setReplicas (s : ClusterState) : Color → Nat → ClusterState
  | .blue, n => { s with blueReplicas := n }
  | .green, n => { s with greenReplicas := n }

/-- One kubectl invocation against the cluster, as recorded in a trace. -/
inductive OrchCall where
  | getServiceSelector
  | getIngressWeight
  | scale (deployment : String) (replicas : Nat)
  | rolloutStatus (deployment : String) (timeoutSeconds : Nat)
  | patchService (target : Color)
  | annotateIngress (weight : Nat)
  | patchConfigMap (name : String)
deriving DecidableEq, Repr

/-- Mutating vs read-only orchestrator calls: `get` reads are not mutating. -/
def OrchCall.isMutating : OrchCall → Bool
  | .getServiceSelector => false
  | .getIngressWeight => false
  | _ => true

/-- Outcome of `Switch-BlueGreen`, distinguishing which stage failed
exactly as the script's messages do. -/
inductive SwitchResult where
  | alreadyAtState
  | rolloutFailed
  | patchFailed
  | success
deriving DecidableEq, Repr

/-- Embedding of `Switch-BlueGreen` (deploy-controller.ps1 lines 96-142).
`rolloutOk` is the observed exit code of `kubectl rollout status`,
`patchOk` that of `kubectl patch service`. The function returns the
resulting cluster state, the trace of kubectl calls made, and the outcome. -/
def switchBlueGreen (target : Color) (rolloutOk patchOk : Bool)
    (s : ClusterState) : ClusterState × List OrchCall × SwitchResult :=
  if s.selector = target then
    (s, [.getServiceSelector], .alreadyAtState)
  else
    let s1 := s.setReplicas target 2
    let calls1 : List OrchCall :=
      [.getServiceSelector, .scale (deploymentName target) 2,
       .rolloutStatus (deploymentName target) 120]
    if rolloutOk then
      let calls2 := calls1 ++ [.patchService target]
      if patchOk then
        let s2 := { s1 with selector := target }
        let s3 := s2.setReplicas target.prev 0
        let s4 := { s3 with cmActiveVersion := some target }
        (s4, calls2 ++ [.scale (deploymentName target.prev) 0,
                        .patchConfigMap "deployment-status"], .success)
      else
        (s1, calls2, .patchFailed)
    else
      (s1, calls1, .rolloutFailed)

/-- Outcome of a canary controller action. -/
inductive CanaryResult where
  | invalidInput
  | annotateFailed
  | alreadyAtMax
  | success
deriving DecidableEq, Repr

/-- Promotion-stage value the `Set-CanaryWeight` ConfigMap patch records
for a weight (deploy-controller.ps1 lines 208-214): the `switch` statement
with `default` branch `"1"`. -/
def stageOf (w : Nat) : Nat :=
  if w = 10 then 1
  else if w = 25 then 2
  else if w = 50 then 3
  else if w = 100 then 4
  else 1

/-- Embedding of `Set-CanaryWeight` (deploy-controller.ps1 lines 195-219).
`annotateOk` is the observed exit code of `kubectl annotate ingress`; the
ConfigMap patch is not exit-code-checked by the script, `cmOk` only says
whether its effect landed. On annotate success the script patches the
`canary-status` ConfigMap with the weight, `canary-enabled` hard-coded to
`"true"`, and `promotion-stage = stageOf w`. -/
def setCanaryWeight (w : Nat) (annotateOk cmOk : Bool)
    (s : ClusterState) : ClusterState × List OrchCall × CanaryResult :=
  if annotateOk then
    let s1 := { s with ingressWeight := some w }
    let s2 := if cmOk then
        { s1 with cmCanaryWeight := some w, cmCanaryEnabled := some true,
                  cmPromotionStage := some (stageOf w) }
      else s1
    (s2, [.annotateIngress w, .patchConfigMap "canary-status"], .success)
  else
    (s, [.annotateIngress w], .annotateFailed)

/-- Embedding of the dispatcher path for `canary-set-weight`: the `$Weight`
parameter carries `[ValidateRange(0, 100)]` (deploy-controller.ps1 lines
14-16), so any integer outside 0..100 fails parameter binding before any
kubectl call; any integer inside 0..100 reaches `Set-CanaryWeight`. -/
def runCanarySetWeight (w : Int) (annotateOk cmOk : Bool)
    (s : ClusterState) : ClusterState × List OrchCall × CanaryResult :=
  if w < 0 ∨ 100 < w then
    (s, [], .invalidInput)
  else
    setCanaryWeight w.toNat annotateOk cmOk s

/-- Next-weight table of `Promote-Canary` (deploy-controller.ps1 lines
227-237): `0→10, 10→25, 25→50, 50→100`, at `100` warn and return
(`none`), any other weight falls to the `default` branch `10`. -/
def nextWeight (w : Nat) : Option Nat :=
  if w = 0 then some 10
  else if w = 10 then some 25
  else if w = 25 then some 50
  else if w = 50 then some 100
  else if w = 100 then none
  else some 10

/-- Embedding of `Promote-Canary` (deploy-controller.ps1 lines 222-245):
read the current weight from the ingress annotation (missing annotation
read as 0), look up the next ladder weight, and either return the
already-at-maximum warning unchanged or delegate to `Set-CanaryWeight`. -/
def promoteCanary (annotateOk cmOk : Bool)
    (s : ClusterState) : ClusterState × List OrchCall × CanaryResult :=
  let current := s.ingressWeight.getD 0
  match nextWeight current with
  | none => (s, [.getIngressWeight], .alreadyAtMax)
  | some nw =>
    let r := setCanaryWeight nw annotateOk cmOk s
    (r.1, .getIngressWeight :: r.2.1, r.2.2)

/-- Embedding of `Rollback-Canary` (deploy-controller.ps1 lines 248-261):
annotate the ingress weight to 0, scale the canary deployment to 0, patch
the `canary-status` ConfigMap to weight 0 / enabled false / stage 0. None
of the three calls is exit-code-checked and no call is conditional on a
previous one; the oracles only decide whether each call's effect landed. -/
def rollbackCanary (annotateOk scaleOk cmOk : Bool)
    (s : ClusterState) : ClusterState × List OrchCall × CanaryResult :=
  let s1 := if annotateOk then { s with ingressWeight := some 0 } else s
  let s2 := if scaleOk then { s1 with canaryReplicas := 0 } else s1
  let s3 := if cmOk then
      { s2 with cmCanaryWeight := some 0, cmCanaryEnabled := some false,
                cmPromotionStage := some 0 }
    else s2
  (s3, [.annotateIngress 0, .scale canaryDeployment 0,
        .patchConfigMap "canary-status"], .success)

/-- Successful-promotion step: `Promote-Canary` with both underlying calls
succeeding, projected to the resulting state. -/
def promoteStep (s : ClusterState) : ClusterState :=
  (promoteCanary true true s).1

/-- Iterate `n` successful promotions. -/
def promoteN : Nat → ClusterState → ClusterState
  | 0, s => s
  | n + 1, s => promoteStep (promoteN n s)

/-- Weight transition of one successful promotion, as a pure function:
the `Set-CanaryWeight` target if the table advances, the old weight when
the script returns at 100. -/
def wstep (w : Nat) : Nat := (nextWeight w).getD w

/-- Iterated weight transition. -/
def wIter : Nat → Nat → Nat
  | 0, w => w
  | n + 1, w => wstep (wIter n w)

/-- Fixed promotion ladder of the spec, `stages = [0, 10, 25, 50, 100]`. -/
def ladder : List Nat := [0, 10, 25, 50, 100]

/-- Model of a pod as the health-check code reads it: its `status.phase`
and the status string of its `Ready` condition. -/
structure Pod where
  phase : String
  readyStatus : String
deriving DecidableEq, Repr

/-- Per-pod healthiness test of `Check-Health` (deploy-controller.ps1 line
283): `$status -eq "Running" -and $ready -eq "True"`. -/
def podCheckHealthy (p : Pod) : Bool :=
  p.phase == "Running" && p.readyStatus == "True"

/-- Result of the `health-check` action of the script: a warning when the
pod query returns nothing, otherwise a per-pod report. -/
inductive HealthReport where
  | noPods
  | report (pods : List (Pod × Bool))
deriving DecidableEq, Repr

/-- Embedding of `Check-Health` (deploy-controller.ps1 lines 264-296):
zero pods yields the `No pods found` warning; otherwise each pod is
classified by `podCheckHealthy`. -/
def checkHealth (pods : List Pod) : HealthReport :=
  if pods = [] then .noPods
  else .report (pods.map fun p => (p, podCheckHealthy p))

/-- Embedding of the Jenkins `Blue-Green: Health Check` stage (app.js
lines 821-850): the stage collects the `Ready` condition statuses of all
matching pods and passes iff the collected output contains `True` — a
substring test on the space-joined status list, which for the
kubernetes status literals (`True`/`False`/`Unknown`) holds exactly when
some matching pod's status string is `True`; zero pods give empty output
and fail the stage. -/
def blueGreenHealthGate (pods : List Pod) : Bool :=
  (pods.map Pod.readyStatus).contains "True"

/-- Fresh ReleaseState of the spec: active color blue, no canary weight
annotation yet, nothing persisted, both blue-green deployments up. -/
def freshState : ClusterState :=
  { selector := .blue, blueReplicas := 2, greenReplicas := 0,
    canaryReplicas := 0, ingressWeight := none, cmActiveVersion := none,
    cmCanaryWeight := none, cmCanaryEnabled := none,
    cmPromotionStage := none }

/-- Mid-promotion state used as a concrete prior state in witnesses:
canary at weight 50, stage 3, three canary replicas. -/
def dirtyState : ClusterState :=
  { selector := .blue, blueReplicas := 2, greenReplicas := 0,
    canaryReplicas := 3, ingressWeight := some 50,
    cmActiveVersion := some .blue, cmCanaryWeight := some 50,
    cmCanaryEnabled := some true, cmPromotionStage := some 3 }

section BlueGreenTheorems

/-- C1: during `switch(target)` the previous color's deployment is scaled
to zero only after the traffic-routing selector patch has succeeded, never
before (in the call trace, the selector patch occurs strictly before the
scale-down); and if the selector patch fails, no scale-down of the
previous color happens, its replica count is untouched and the switch does
not report success. -/
theorem switch_scaleDown_only_after_patch (target : Color)
    (rolloutOk patchOk : Bool) (s : ClusterState) :
    (OrchCall.scale (deploymentName target.prev) 0 ∈
        (switchBlueGreen target rolloutOk patchOk s).2.1 →
      OrchCall.patchService target ∈
        (switchBlueGreen target rolloutOk patchOk s).2.1.takeWhile
          (fun c => c != OrchCall.scale (deploymentName target.prev) 0)) ∧
    (patchOk = false →
      OrchCall.scale (deploymentName target.prev) 0 ∉
        (switchBlueGreen target rolloutOk patchOk s).2.1 ∧
      (switchBlueGreen target rolloutOk patchOk s).1.replicasOf target.prev
        = s.replicasOf target.prev ∧
      (switchBlueGreen target rolloutOk patchOk s).2.2 ≠ .success) := by
  unfold switchBlueGreen
  by_cases h : s.selector = target
  · rw [if_pos h]
    cases target <;>
      simp [Color.prev, ClusterState.replicasOf]
  · rw [if_neg h]
    cases rolloutOk <;> cases patchOk <;> cases target <;>
      simp [Color.prev, deploymentName, ClusterState.setReplicas,
        ClusterState.replicasOf, List.takeWhile] <;> decide

/-- Witness for the C1 theorem at a concrete input: switching fresh state
to green with a failing selector patch. -/
theorem switch_scaleDown_only_after_patch_witness :
    OrchCall.scale (deploymentName Color.green.prev) 0 ∉
      (switchBlueGreen .green true false freshState).2.1 ∧
    (switchBlueGreen .green true false freshState).1.replicasOf
        Color.green.prev = freshState.replicasOf Color.green.prev ∧
    (switchBlueGreen .green true false freshState).2.2 ≠ .success :=
  (switch_scaleDown_only_after_patch .green true false freshState).2 rfl

/-- C2: if the health wait fails during `switch(target)` (the rollout
status check reports not ready in time), the service selector and the
persisted active version are unchanged, the previously active color stays
active, and no selector patch call was issued; the outcome is the rollout
failure. -/
theorem switch_unhealthy_preserves_selector (target : Color)
    (patchOk : Bool) (s : ClusterState) (h : s.selector ≠ target) :
    (switchBlueGreen target false patchOk s).2.2 = .rolloutFailed ∧
    (switchBlueGreen target false patchOk s).1.selector = s.selector ∧
    (switchBlueGreen target false patchOk s).1.cmActiveVersion
      = s.cmActiveVersion ∧
    OrchCall.patchService target ∉
      (switchBlueGreen target false patchOk s).2.1 := by
  unfold switchBlueGreen
  rw [if_neg h]
  cases target <;> simp [ClusterState.setReplicas]

/-- Witness for the C2 theorem: the spec's scenario — fresh state with
active color blue, `blue-green-switch(green)` with green unhealthy yields
the failure outcome with the selector still blue. -/
theorem switch_unhealthy_preserves_selector_witness :
    (switchBlueGreen .green false true freshState).2.2 = .rolloutFailed ∧
    (switchBlueGreen .green false true freshState).1.selector = .blue :=
  ⟨(switch_unhealthy_preserves_selector .green true freshState
      (by decide)).1,
   (switch_unhealthy_preserves_selector .green true freshState
      (by decide)).2.1⟩

/-- C9 (amended): `switch(target)` with `target` already active returns
the already-at-state warning, changes no state, and performs no mutating
orchestrator call — but it does perform exactly one read-only call, the
service selector read used to detect the no-op. -/
theorem switch_noop_readonly (target : Color) (rolloutOk patchOk : Bool)
    (s : ClusterState) (h : s.selector = target) :
    switchBlueGreen target rolloutOk patchOk s
      = (s, [.getServiceSelector], .alreadyAtState) ∧
    (∀ c ∈ (switchBlueGreen target rolloutOk patchOk s).2.1,
      c.isMutating = false) ∧
    (switchBlueGreen target rolloutOk patchOk s).2.1.length = 1 := by
  unfold switchBlueGreen
  rw [if_pos h]
  simp [OrchCall.isMutating]

/-- Counterexample to C9 as stated: switching to the already-active blue
color on the fresh state performs one orchestrator call (the service
selector read), not zero. -/
theorem switch_noop_counterexample :
    switchBlueGreen .blue true true freshState
      = (freshState, [.getServiceSelector], .alreadyAtState) ∧
    (switchBlueGreen .blue true true freshState).2.1.length ≠ 0 := by
  constructor
  · rfl
  · decide

/-- Witness for the C9 amended theorem at a concrete input. -/
theorem switch_noop_readonly_witness :
    switchBlueGreen .blue false false freshState
      = (freshState, [.getServiceSelector], .alreadyAtState) ∧
    (switchBlueGreen .blue false false freshState).2.1.length = 1 :=
  ⟨(switch_noop_readonly .blue false false freshState rfl).1,
   (switch_noop_readonly .blue false false freshState rfl).2.2⟩

/-- C10: when `switch(target)` proceeds past the no-op check, its first
three orchestrator calls are the selector read, a scale of the target
deployment to 2 replicas, and a rollout wait bounded by 120 seconds; the
selector patch is issued only when the rollout wait succeeded, and then
directly after it; the target deployment ends scaled to 2. -/
theorem switch_scaleup_wait_before_patch (target : Color)
    (rolloutOk patchOk : Bool) (s : ClusterState)
    (h : s.selector ≠ target) :
    (switchBlueGreen target rolloutOk patchOk s).2.1.take 3
      = [.getServiceSelector, .scale (deploymentName target) 2,
         .rolloutStatus (deploymentName target) 120] ∧
    (rolloutOk = true →
      (switchBlueGreen target rolloutOk patchOk s).2.1.take 4
        = [.getServiceSelector, .scale (deploymentName target) 2,
           .rolloutStatus (deploymentName target) 120,
           .patchService target]) ∧
    (OrchCall.patchService target ∈
        (switchBlueGreen target rolloutOk patchOk s).2.1 →
      rolloutOk = true) ∧
    (switchBlueGreen target rolloutOk patchOk s).1.replicasOf target = 2 := by
  unfold switchBlueGreen
  rw [if_neg h]
  cases rolloutOk <;> cases patchOk <;> cases target <;>
    simp [Color.prev, deploymentName, ClusterState.setReplicas,
      ClusterState.replicasOf]

/-- Witness for the C10 theorem: fresh state, switch to green with both
underlying calls succeeding. -/
theorem switch_scaleup_wait_before_patch_witness :
    (switchBlueGreen .green true true freshState).2.1.take 4
      = [.getServiceSelector, .scale (deploymentName .green) 2,
         .rolloutStatus (deploymentName .green) 120,
         .patchService .green] ∧
    (switchBlueGreen .green true true freshState).1.replicasOf .green = 2 :=
  ⟨(switch_scaleup_wait_before_patch .green true true freshState
      (by decide)).2.1 rfl,
   (switch_scaleup_wait_before_patch .green true true freshState
      (by decide)).2.2.2⟩

end BlueGreenTheorems

section CanaryTheorems

/-- Helper: one successful promotion leaves the ingress annotation at the
pure weight transition of the current weight, in every case (including
the already-at-100 warning, which changes nothing). -/
theorem promoteStep_ingressWeight (s : ClusterState) :
    (promoteStep s).ingressWeight = some (wstep (s.ingressWeight.getD 0)) := by
  unfold promoteStep promoteCanary
  cases h : nextWeight (s.ingressWeight.getD 0) with
  | none =>
    have hx : s.ingressWeight.getD 0 = 100 := by
      revert h; unfold nextWeight; split_ifs <;> simp_all
    rcases hs : s.ingressWeight with _ | w
    · rw [hs] at hx; simp at hx
    · rw [hs] at hx; simp at hx; subst hx
      simp [wstep, nextWeight]
      exact hs
  | some nw =>
    simp [h, setCanaryWeight, wstep]

/-- Helper: the annotation weight after `n` successful promotions is the
`n`-fold pure weight transition of the starting weight. -/
theorem promoteN_weight (n : Nat) (s : ClusterState) :
    (promoteN n s).ingressWeight.getD 0
      = wIter n (s.ingressWeight.getD 0) := by
  induction n with
  | zero => rfl
  | succ k ih =>
    show (promoteStep (promoteN k s)).ingressWeight.getD 0 = _
    rw [promoteStep_ingressWeight, Option.getD_some, ih]
    rfl

/-- Helper: from weight 0 the transition reaches 100 after four steps and
stays there. -/
theorem wIter_add_four (n : Nat) : wIter (n + 4) 0 = 100 := by
  induction n with
  | zero => decide
  | succ k ih =>
    show wstep (wIter (k + 4) 0) = 100
    rw [ih]
    decide

/-- Helper: from weight 0 the `n`-fold transition follows the ladder,
capped at its last stage. -/
theorem wIter_zero_ladder (n : Nat) :
    wIter n 0 = ladder.getD (min n 4) 0 := by
  match n with
  | 0 => decide
  | 1 => decide
  | 2 => decide
  | 3 => decide
  | m + 4 =>
    rw [wIter_add_four m]
    have : min (m + 4) 4 = 4 := by omega
    rw [this]
    decide

/-- C4: starting from canary weight 0, the weight after `n` successful
promotions is `stages[min(n,4)]` over the ladder `[0,10,25,50,100]`, and
once four promotions have run (weight 100) a further `promote()` returns
the already-at-maximum warning and changes nothing. -/
theorem promote_ladder_progression (n : Nat) (s : ClusterState)
    (h : s.ingressWeight.getD 0 = 0) :
    (promoteN n s).ingressWeight.getD 0 = ladder.getD (min n 4) 0 ∧
    (promoteCanary true true (promoteN 4 s)).2.2 = .alreadyAtMax ∧
    promoteN 5 s = promoteN 4 s := by
  have h4 : (promoteN 4 s).ingressWeight = some 100 := by
    show (promoteStep (promoteN 3 s)).ingressWeight = some 100
    rw [promoteStep_ingressWeight, promoteN_weight 3 s, h]
    decide
  refine ⟨?_, ?_, ?_⟩
  · rw [promoteN_weight n s, h, wIter_zero_ladder]
  · unfold promoteCanary
    rw [h4]
    simp [nextWeight]
  · show promoteStep (promoteN 4 s) = promoteN 4 s
    unfold promoteStep promoteCanary
    rw [h4]
    simp [nextWeight]

/-- Witness for the C4 theorem: two promotions from the fresh state land
at weight 25, and the state after five promotions equals the state after
four. -/
theorem promote_ladder_progression_witness :
    (promoteN 2 freshState).ingressWeight.getD 0
      = ladder.getD (min 2 4) 0 ∧
    promoteN 5 freshState = promoteN 4 freshState :=
  ⟨(promote_ladder_progression 2 freshState rfl).1,
   (promote_ladder_progression 2 freshState rfl).2.2⟩

/-- Counterexample to C5 as stated: weight 37 is outside the ladder, yet
`canary-set-weight` with 37 is not rejected — it passes the 0..100 range
validation, annotates the ingress to 37 and reports success, changing the
state. -/
theorem setWeight_nonladder_accepted :
    (37 : Nat) ∉ ladder ∧
    (runCanarySetWeight 37 true true freshState).2.2
      = CanaryResult.success ∧
    (runCanarySetWeight 37 true true freshState).2.2
      ≠ CanaryResult.invalidInput ∧
    (runCanarySetWeight 37 true true freshState).1.ingressWeight
      = some 37 := by
  refine ⟨by decide, rfl, by decide, rfl⟩

/-- C5 (amended): the dispatcher's `$Weight` validation is the range
0..100, not the ladder: a weight outside 0..100 is rejected as invalid
input with no orchestrator call and the state unchanged, while every
integer inside 0..100 — ladder member or not — passes validation and is
never reported as invalid input. -/
theorem setWeight_range_validation (w : Int) (annotateOk cmOk : Bool)
    (s : ClusterState) :
    ((w < 0 ∨ 100 < w) →
      runCanarySetWeight w annotateOk cmOk s = (s, [], .invalidInput)) ∧
    (0 ≤ w → w ≤ 100 →
      (runCanarySetWeight w annotateOk cmOk s).2.2 ≠ .invalidInput) := by
  unfold runCanarySetWeight
  constructor
  · intro h
    rw [if_pos h]
  · intro h1 h2
    rw [if_neg (by omega)]
    unfold setCanaryWeight
    split <;> simp

/-- Witness for the C5 amended theorem: weight 101 is rejected without
state change; weight 37 is not reported invalid. -/
theorem setWeight_range_validation_witness :
    runCanarySetWeight 101 true true freshState
      = (freshState, [], .invalidInput) ∧
    (runCanarySetWeight 37 false true freshState).2.2
      ≠ CanaryResult.invalidInput :=
  ⟨(setWeight_range_validation 101 true true freshState).1
      (by decide),
   (setWeight_range_validation 37 false true freshState).2
      (by decide) (by decide)⟩

/-- Counterexample to C6 as stated: a successful `setWeight(0)` persists
`canary-enabled = true` (the ConfigMap patch hard-codes `"true"`) and
`promotion-stage = 1` (the `default` branch of the stage table), not
`false` and `0` as claimed — so `ladder[promotionStage]` is 10 while the
weight is 0, breaking the claimed invariant. -/
theorem setWeight_zero_persists_enabled :
    (runCanarySetWeight 0 true true freshState).2.2
      = CanaryResult.success ∧
    (runCanarySetWeight 0 true true freshState).1.cmCanaryEnabled
      = some true ∧
    (runCanarySetWeight 0 true true freshState).1.cmPromotionStage
      = some 1 ∧
    ladder.getD 1 0 ≠ (runCanarySetWeight 0 true true
      freshState).1.ingressWeight.getD 0 := by
  refine ⟨rfl, rfl, rfl, by decide⟩

/-- C6 (amended): after a successful `setWeight(w)` for a positive ladder
weight `w ∈ {10,25,50,100}`, the persisted state has
`canaryWeight = w`, `canaryEnabled = true = (w > 0)` and
`promotionStage = ladder index of w`, so `ladder[promotionStage] = w`;
for `w = 0`, however, the code persists `canaryEnabled = true` and
`promotionStage = 1` (while still annotating the weight to 0). -/
theorem setWeight_persistence (w : Nat) (s : ClusterState)
    (h : w = 10 ∨ w = 25 ∨ w = 50 ∨ w = 100) :
    (setCanaryWeight w true true s).1.ingressWeight = some w ∧
    (setCanaryWeight w true true s).1.cmCanaryWeight = some w ∧
    (setCanaryWeight w true true s).1.cmCanaryEnabled = some true ∧
    (setCanaryWeight w true true s).1.cmPromotionStage
      = some (ladder.indexOf w) ∧
    ladder.getD (ladder.indexOf w) 0 = w ∧
    ((setCanaryWeight 0 true true s).1.cmCanaryEnabled = some true ∧
     (setCanaryWeight 0 true true s).1.cmPromotionStage = some 1 ∧
     (setCanaryWeight 0 true true s).1.ingressWeight = some 0) := by
  rcases h with rfl | rfl | rfl | rfl <;>
    refine ⟨rfl, rfl, rfl, ?_, by decide, rfl, rfl, rfl⟩ <;>
    simp [setCanaryWeight, stageOf, ladder, List.indexOf] <;> rfl

/-- Witness for the C6 amended theorem at weight 25. -/
theorem setWeight_persistence_witness :
    (setCanaryWeight 25 true true dirtyState).1.cmCanaryWeight
      = some 25 ∧
    (setCanaryWeight 25 true true dirtyState).1.cmPromotionStage
      = some (ladder.indexOf 25) :=
  ⟨(setWeight_persistence 25 dirtyState (by decide)).2.1,
   (setWeight_persistence 25 dirtyState (by decide)).2.2.2.1⟩

/-- Counterexample to C7 as stated: weight 37 is reachable (via
`canary-set-weight 37`, which the range validation accepts), 37 is not a
ladder member, and a successful `promote()` from weight 37 falls into the
`default` branch and sets the weight to 10 — a strict decrease without
any rollback. -/
theorem promote_nonladder_decreases :
    (runCanarySetWeight 37 true true freshState).1.ingressWeight.getD 0
      = 37 ∧
    (37 : Nat) ∉ ladder ∧
    (promoteStep (runCanarySetWeight 37 true true freshState).1
      ).ingressWeight.getD 0 = 10 ∧
    (10 : Nat) < 37 := by
  refine ⟨rfl, by decide, rfl, by decide⟩

/-- C7 (amended): as long as the current weight is a ladder member, one
successful `promote()` never decreases the weight, keeps it in the
ladder, and below 100 advances the ladder index by exactly one; the
unrestricted claim fails because `setWeight` accepts any weight in
0..100 and `promote()` from a non-ladder weight resets to 10. -/
theorem promote_monotone_on_ladder (s : ClusterState)
    (h : s.ingressWeight.getD 0 ∈ ladder) :
    s.ingressWeight.getD 0 ≤ (promoteStep s).ingressWeight.getD 0 ∧
    (promoteStep s).ingressWeight.getD 0 ∈ ladder ∧
    (s.ingressWeight.getD 0 ≠ 100 →
      ladder.indexOf ((promoteStep s).ingressWeight.getD 0)
        = ladder.indexOf (s.ingressWeight.getD 0) + 1) := by
  rw [promoteStep_ingressWeight, Option.getD_some]
  generalize hgen : s.ingressWeight.getD 0 = w at h ⊢
  fin_cases h <;> decide

/-- Witness for the C7 amended theorem at the mid-promotion state with
weight 50. -/
theorem promote_monotone_on_ladder_witness :
    dirtyState.ingressWeight.getD 0
      ≤ (promoteStep dirtyState).ingressWeight.getD 0 ∧
    (promoteStep dirtyState).ingressWeight.getD 0 ∈ ladder :=
  ⟨(promote_monotone_on_ladder dirtyState (by decide)).1,
   (promote_monotone_on_ladder dirtyState (by decide)).2.1⟩

/-- C8: `rollback()` always issues all three of its calls — annotate the
weight to 0, scale the canary deployment to 0, patch the status ConfigMap
to weight 0 / enabled false / stage 0 — with no health or rollout wait in
the trace and no call conditional on an earlier one's success; whichever
individual calls do land leave their fields at the rolled-back values,
from any prior state. -/
theorem rollback_unconditional (annotateOk scaleOk cmOk : Bool)
    (s : ClusterState) :
    (rollbackCanary annotateOk scaleOk cmOk s).2.1
      = [.annotateIngress 0, .scale canaryDeployment 0,
         .patchConfigMap "canary-status"] ∧
    (∀ d t, OrchCall.rolloutStatus d t ∉
      (rollbackCanary annotateOk scaleOk cmOk s).2.1) ∧
    (rollbackCanary annotateOk scaleOk cmOk s).2.2 = .success ∧
    (annotateOk = true →
      (rollbackCanary annotateOk scaleOk cmOk s).1.ingressWeight
        = some 0) ∧
    (scaleOk = true →
      (rollbackCanary annotateOk scaleOk cmOk s).1.canaryReplicas = 0) ∧
    (cmOk = true →
      (rollbackCanary annotateOk scaleOk cmOk s).1.cmCanaryWeight
          = some 0 ∧
      (rollbackCanary annotateOk scaleOk cmOk s).1.cmCanaryEnabled
          = some false ∧
      (rollbackCanary annotateOk scaleOk cmOk s).1.cmPromotionStage
          = some 0) := by
  cases annotateOk <;> cases scaleOk <;> cases cmOk <;>
    simp [rollbackCanary]

/-- Witness for the C8 theorem: rollback from the mid-promotion state
with a failing scale-to-zero still annotates the weight to 0 and persists
enabled false / stage 0. -/
theorem rollback_unconditional_witness :
    (rollbackCanary true false true dirtyState).1.ingressWeight
      = some 0 ∧
    (rollbackCanary true false true dirtyState).1.cmCanaryEnabled
      = some false ∧
    (rollbackCanary true false true dirtyState).2.2 = .success :=
  ⟨(rollback_unconditional true false true dirtyState).2.2.2.1 rfl,
   ((rollback_unconditional true false true dirtyState).2.2.2.2.2
      rfl).2.1,
   (rollback_unconditional true false true dirtyState).2.2.1⟩

end CanaryTheorems

section HealthTheorems

/-- Counterexample to C3 as stated: with one pod Running/Ready and one
pod Pending/not-Ready, the pipeline's blue-green health gate reports
healthy even though not every matching pod is Running with Ready=True —
the gate only needs one Ready status in the collected output. -/
theorem healthGate_partial_ready_counterexample :
    blueGreenHealthGate
      [⟨"Running", "True"⟩, ⟨"Pending", "False"⟩] = true ∧
    ¬ (∀ p ∈ ([⟨"Running", "True"⟩, ⟨"Pending", "False"⟩] : List Pod),
        podCheckHealthy p = true) := by
  refine ⟨rfl, by decide⟩

/-- C3 (amended): the pipeline's blue-green health gate reports healthy
exactly when some matching pod's Ready condition status is `True` (pod
phase is not consulted), so zero matching pods always fail the gate,
never healthy; the script's `health-check` action reports the no-pods
warning exactly on an empty pod list, and classifies an individual pod
healthy exactly when its phase is `Running` and its Ready status `True`. -/
theorem healthGate_characterization (pods : List Pod) (p : Pod) :
    (blueGreenHealthGate pods = true
      ↔ ∃ q ∈ pods, q.readyStatus = "True") ∧
    blueGreenHealthGate [] = false ∧
    checkHealth [] = .noPods ∧
    (pods ≠ [] →
      checkHealth pods
        = .report (pods.map fun q => (q, podCheckHealthy q))) ∧
    (podCheckHealthy p = true
      ↔ (p.phase = "Running" ∧ p.readyStatus = "True")) := by
  refine ⟨?_, rfl, rfl, ?_, ?_⟩
  · simp [blueGreenHealthGate, List.contains, List.elem_eq_mem,
      List.mem_map, eq_comm]
  · intro h
    simp [checkHealth, h]
  · simp [podCheckHealthy]

/-- Witness for the C3 amended theorem at a concrete pod list. -/
theorem healthGate_characterization_witness :
    checkHealth [Pod.mk "Running" "True"]
      = .report ([Pod.mk "Running" "True"].map
          fun q => (q, podCheckHealthy q)) ∧
    blueGreenHealthGate [] = false :=
  ⟨(healthGate_characterization [Pod.mk "Running" "True"]
      (Pod.mk "Running" "True")).2.2.2.1 (by decide),
   (healthGate_characterization [] (Pod.mk "" "")).2.1⟩

end HealthTheorems

end CICD
